import Mathlib

/-!
Verification of the travel-request lifecycle engine.

The relational store is modelled as an explicit record of tables (lists of
rows); a transaction is modelled by running the body on a copy of the state
and discarding it on error (rollback) or publishing it on commit.  Machine
numbers from the source are modelled as Int; date+time pairs are modelled as
a single epoch-millisecond timestamp.  Untyped input values are modelled by
an explicit dynamic-value type so that the runtime type checks of the source
are expressible.
-/

deriving instance DecidableEq for Except

/-- A dynamic (JavaScript-like) value, used for untyped request payload
fields whose runtime type the source inspects. -/
inductive JsVal where
  | num (n : Int)
  | str (s : String)
  | boolv (b : Bool)
  | nullv
  | undef
deriving DecidableEq

/-- The `typeof v === "number"` check of the source. -/
def JsVal.isNumber : JsVal → Bool
  | .num _ => true
  | _ => false

/-- Numeric content of a dynamic value (only used after a type check). -/
def JsVal.toInt : JsVal → Int
  | .num n => n
  | _ => 0

/-- A row of the User table (the two columns the core reads). -/
structure UserRow where
  user_id : Int
  role_id : Int
deriving DecidableEq

/-- A row of the Request table. -/
structure RequestRow where
  request_id : Int
  user_id : Int
  request_status_id : Int
  notes : String
  requested_fee : Int
  imposed_fee : Int
  request_days : Int
deriving DecidableEq

/-- A row of the Route table.  The source stores the beginning and ending
date and time as separate columns; here each pair is one epoch-millisecond
timestamp. -/
structure RouteRow where
  route_id : Int
  id_origin_country : Int
  id_origin_city : Int
  id_destination_country : Int
  id_destination_city : Int
  router_index : Int
  plane_needed : Bool
  hotel_needed : Bool
  beginning_ts : Int
  ending_ts : Int
deriving DecidableEq

/-- A row of the Receipt table.  The validation column holds one of
"Pendiente", "Aprobado", "Rechazado". -/
structure ReceiptRow where
  receipt_id : Int
  receipt_type_id : Int
  request_id : Int
  amount : Int
  validation : String
deriving DecidableEq

/-- The relational store: one list of rows per table, plus the
auto-increment counters. -/
structure DB where
  users : List UserRow
  requests : List RequestRow
  routes : List RouteRow
  route_requests : List (Int × Int)
  receipts : List ReceiptRow
  countries : List (Int × String)
  cities : List (Int × String)
  nextRequestId : Int
  nextRouteId : Int
  nextCountryId : Int
  nextCityId : Int
  nextReceiptId : Int
deriving DecidableEq

/-- SELECT validation FROM Receipt WHERE request_id = ? (accountsPayableModel
getReceiptStatusesForRequest), returning the list of validation strings. -/
def getReceiptStatusesForRequest (db : DB) (requestId : Int) : List String :=
  (db.receipts.filter (fun r => decide (r.request_id = requestId))).map
    (fun r => r.validation)

/-- UPDATE Request SET request_status_id = ? WHERE request_id = ?
(accountsPayableModel updateRequestStatus). -/
def updateRequestStatus (db : DB) (requestId statusId : Int) : DB :=
  { db with
    requests := db.requests.map (fun q =>
      if q.request_id = requestId then { q with request_status_id := statusId }
      else q) }

/-- Result value of the receipt-reevaluation service. -/
structure ReevalResult where
  updatedStatus : Option Int
  message : String
deriving DecidableEq

/-- The pure decision of accountsPayableService.validateReceiptsAndUpdateStatus
over the fetched statuses list: the statuses.includes("Rechazado") check,
then the statuses.every(s => s === "Aprobado") check. -/
def decideReceipts (statuses : List String) : ReevalResult :=
  if statuses.contains "Rechazado" then
    { updatedStatus := some 6,
      message := "Some receipts were rejected. Request moved back to step 6." }
  else if statuses.all (fun s => decide (s = "Aprobado")) then
    { updatedStatus := some 8,
      message := "All receipts approved. Request finalized." }
  else
    { updatedStatus := none,
      message := "Receipts still pending. No status change applied." }

/-- accountsPayableService.validateReceiptsAndUpdateStatus: fetch the
statuses of the receipts of the request; any "Rechazado" sends the request
back to status 6, all "Aprobado" finalizes it at status 8, otherwise no
status change. -/
def validateReceiptsAndUpdateStatus (db : DB) (requestId : Int) :
    DB × ReevalResult :=
  let statuses := getReceiptStatusesForRequest db requestId
  if statuses.contains "Rechazado" then
    (updateRequestStatus db requestId 6,
      { updatedStatus := some 6,
        message := "Some receipts were rejected. Request moved back to step 6." })
  else if statuses.all (fun s => decide (s = "Aprobado")) then
    (updateRequestStatus db requestId 8,
      { updatedStatus := some 8,
        message := "All receipts approved. Request finalized." })
  else
    (db,
      { updatedStatus := none,
        message := "Receipts still pending. No status change applied." })

/-- applicantService.getCountryId: SELECT country_id FROM Country WHERE
country_name = ?; if the first row is undefined, INSERT the name and return
the fresh insertId, otherwise return the existing country_id. -/
def getCountryId (db : DB) (countryName : String) : DB × Int :=
  match db.countries.find? (fun c => decide (c.2 = countryName)) with
  | some c => (db, c.1)
  | none =>
      ({ db with
         countries := db.countries ++ [(db.nextCountryId, countryName)],
         nextCountryId := db.nextCountryId + 1 },
       db.nextCountryId)

/-- applicantService.getCityId: same get-or-create shape over the City
table. -/
def getCityId (db : DB) (cityName : String) : DB × Int :=
  match db.cities.find? (fun c => decide (c.2 = cityName)) with
  | some c => (db, c.1)
  | none =>
      ({ db with
         cities := db.cities ++ [(db.nextCityId, cityName)],
         nextCityId := db.nextCityId + 1 },
       db.nextCityId)

/-- The Route rows linked to a request through the Route_Request table. -/
def routesOfRequest (db : DB) (requestId : Int) : List RouteRow :=
  (db.route_requests.filter (fun p => decide (p.1 = requestId))).filterMap
    (fun p => db.routes.find? (fun r => decide (r.route_id = p.2)))

/-- Modelled from the spec: the SQL view RequestWithRouteDetails (its
definition lives in the database schema, which is not part of the sources)
exposes, per request, the aggregated per-leg need flags as 0/1 lists in leg
order; the controller tests them with .includes(1). -/
def hotel_needed_list (db : DB) (requestId : Int) : List Int :=
  (routesOfRequest db requestId).map (fun r => if r.hotel_needed then 1 else 0)

/-- Modelled from the spec: per-leg "needs flight" flags of the request as a
0/1 list, as exposed by the RequestWithRouteDetails view. -/
def plane_needed_list (db : DB) (requestId : Int) : List Int :=
  (routesOfRequest db requestId).map (fun r => if r.plane_needed then 1 else 0)

/-- accountsPayableModel.requestExists: the view row (request columns plus
the need-flag lists) for the request, or none. -/
def requestExists (db : DB) (requestId : Int) : Option RequestRow :=
  db.requests.find? (fun q => decide (q.request_id = requestId))

/-- UPDATE Request SET request_status_id = ?, imposed_fee = ? WHERE
request_id = ? (accountsPayableModel.attendTravelRequest). -/
def attendUpdate (db : DB) (requestId : Int) (imposedFee newStatus : Int) :
    DB :=
  { db with
    requests := db.requests.map (fun q =>
      if q.request_id = requestId then
        { q with request_status_id := newStatus, imposed_fee := imposedFee }
      else q) }

/-- Outcome of the accounts-payable attend controller. -/
inductive AttendResult where
  | notFound
  | cannotAttend
  | ok (newStatus : Int) (imposedFee : Int)
deriving DecidableEq

/-- accountsPayableController.attendTravelRequest: 404 when the request is
missing, rejected when its status is not 4, otherwise store the imposed fee
and advance to 5 when some leg needs a hotel or a plane, else to 6. -/
def attendTravelRequest (db : DB) (requestId : Int) (imposedFee : Int) :
    DB × AttendResult :=
  match requestExists db requestId with
  | none => (db, .notFound)
  | some request =>
    if request.request_status_id ≠ 4 then (db, .cannotAttend)
    else
      let hotel := hotel_needed_list db requestId
      let plane := plane_needed_list db requestId
      let newStatus : Int := if hotel.contains 1 ∨ plane.contains 1 then 5 else 6
      (attendUpdate db requestId imposedFee newStatus,
        .ok newStatus imposedFee)

/-- Modelled from the spec: the Receipt.validation column is the tri-state
enumeration Pendiente, Aprobado, Rechazado, and the store maps the numeric
codes the controller writes (2, 3) to its second and third member, as the
controller documents (1=approved writes 2, 0=rejected writes 3). -/
def validationOfCode (code : Int) : String :=
  if code = 1 then "Pendiente"
  else if code = 2 then "Aprobado"
  else if code = 3 then "Rechazado"
  else ""

/-- Outcome of the single-receipt validation controller. -/
inductive ReceiptValidateResult where
  | invalidInput
  | notFound
  | alreadyDecided
  | ok (newStatus : String)
deriving DecidableEq

/-- accountsPayableController.validateReceipt: approval must be 0 or 1; the
receipt must exist and still be "Pendiente"; the update writes validation
code 3 - approval, and the response reports Aprobado for 1, Rechazado
for 0. -/
def validateReceipt (db : DB) (receiptId : Int) (approval : Int) :
    DB × ReceiptValidateResult :=
  if approval ≠ 0 ∧ approval ≠ 1 then (db, .invalidInput)
  else
    match db.receipts.find? (fun r => decide (r.receipt_id = receiptId)) with
    | none => (db, .notFound)
    | some receipt =>
      if receipt.validation ≠ "Pendiente" then (db, .alreadyDecided)
      else
        let db' :=
          { db with
            receipts := db.receipts.map (fun r =>
              if r.receipt_id = receiptId then
                { r with validation := validationOfCode (3 - approval) }
              else r) }
        (db', .ok (if approval = 1 then "Aprobado" else "Rechazado"))

/-- applicantModel.getRequestStatus (the later, overriding definition):
rows[0]?.request_status_id || null, so a falsy (0) status also reads as
null. -/
def getRequestStatus (db : DB) (requestId : Int) : Option Int :=
  match db.requests.find? (fun q => decide (q.request_id = requestId)) with
  | none => none
  | some q =>
      if q.request_status_id = 0 then none else some q.request_status_id

/-- applicantModel.cancelTravelRequest: UPDATE Request SET
request_status_id = 9 WHERE request_id = ?. -/
def cancelTravelRequest (db : DB) (requestId : Int) : DB :=
  { db with
    requests := db.requests.map (fun q =>
      if q.request_id = requestId then { q with request_status_id := 9 }
      else q) }

/-- Outcome of the cancellation service. -/
inductive CancelResult where
  | ok (requestId : Int)
  | notFound
  | tooLate
  | alreadyCancelled
deriving DecidableEq

/-- applicantService.cancelTravelRequestValidation: not-found when the
status reads null; a status outside 1,2,3,4,5,9 is past the point of
cancellation; 9 is already cancelled; otherwise cancel. -/
def cancelTravelRequestValidation (db : DB) (requestId : Int) :
    DB × CancelResult :=
  match getRequestStatus db requestId with
  | none => (db, .notFound)
  | some status_id =>
    if ¬ (status_id ∈ ([1, 2, 3, 4, 5, 9] : List Int)) then (db, .tooLate)
    else if status_id = 9 then (db, .alreadyCancelled)
    else (cancelTravelRequest db requestId, .ok requestId)

/-- A formatted route leg, the element type of the array that
applicantService.formatRoutes builds (date+time pairs as one
epoch-millisecond timestamp). -/
structure RouteLeg where
  router_index : Int
  origin_country_name : String
  origin_city_name : String
  destination_country_name : String
  destination_city_name : String
  beginning_ts : Int
  ending_ts : Int
  plane_needed : Bool
  hotel_needed : Bool
deriving DecidableEq

/-- An additional route as received in the payload: every field may be
absent, and formatRoutes substitutes defaults with the JavaScript
falsy-or operator. -/
structure AdditionalRoute where
  router_index : Int
  origin_country_name : Option String
  origin_city_name : Option String
  destination_country_name : Option String
  destination_city_name : Option String
  beginning_ts : Option Int
  ending_ts : Option Int
  plane_needed : Option Bool
  hotel_needed : Option Bool
deriving DecidableEq

/-- The "x || defaultString" defaulting of formatRoutes: an absent or empty
string falls back to the default. -/
def jsOrStr (v : Option String) (d : String) : String :=
  match v with
  | none => d
  | some s => if s = "" then d else s

/-- Timestamp of the sentinel date "0000-01-01T00:00:00" that formatRoutes
substitutes for an absent date. -/
def sentinelTs : Int := -62167219200000

/-- applicantService.formatRoutes: the main route first, then the
additional routes with defaults substituted for absent fields. -/
def formatRoutes (mainRoute : RouteLeg) (additionalRoutes : List AdditionalRoute) :
    List RouteLeg :=
  mainRoute ::
    additionalRoutes.map (fun route =>
      { router_index := route.router_index,
        origin_country_name := jsOrStr route.origin_country_name "notSelected",
        origin_city_name := jsOrStr route.origin_city_name "notSelected",
        destination_country_name :=
          jsOrStr route.destination_country_name "notSelected",
        destination_city_name :=
          jsOrStr route.destination_city_name "notSelected",
        beginning_ts := route.beginning_ts.getD sentinelTs,
        ending_ts := route.ending_ts.getD sentinelTs,
        plane_needed := route.plane_needed.getD false,
        hotel_needed := route.hotel_needed.getD false })

/-- Milliseconds per day, the divisor of getRequestDays. -/
def msPerDay : Int := 1000 * 60 * 60 * 24

/-- Math.ceil of the exact quotient a / b (for positive b), as an Int
operation: the negated floor division of the negation. -/
def jsCeilDiv (a b : Int) : Int := -((-a).fdiv b)

/-- The comparator of getRequestDays: routes.sort((a, b) =>
a.router_index - b.router_index), as the ordering it sorts by. -/
def routeLe (a b : RouteLeg) : Prop := a.router_index ≤ b.router_index

instance : DecidableRel routeLe := fun a b =>
  inferInstanceAs (Decidable (a.router_index ≤ b.router_index))

instance : IsTotal RouteLeg routeLe :=
  ⟨fun a b => Int.le_total a.router_index b.router_index⟩

instance : IsTrans RouteLeg routeLe :=
  ⟨fun _ _ _ h h' => le_trans h h'⟩

instance : IsRefl RouteLeg routeLe := ⟨fun a => le_refl a.router_index⟩

/-- applicantService.getRequestDays: 0 for no routes; otherwise sort the
routes by router_index (a stable sort, as Array.prototype.sort), take the
first and the last, and return the ceiling of their timestamp difference in
days. -/
def getRequestDays (routes : List RouteLeg) : Int :=
  if routes.isEmpty then 0
  else
    let sortedRoutes := List.insertionSort routeLe routes
    match sortedRoutes.head?, sortedRoutes.getLast? with
    | some firstRoute, some lastRoute =>
        jsCeilDiv (lastRoute.ending_ts - firstRoute.beginning_ts) msPerDay
    | _, _ => 0

/-- The role-to-initial-status branching of applicantModel
createTravelRequest and confirmDraftTravelRequest: role 1 to status 2,
role 4 to status 3, role 5 to status 4, anything else throws. -/
def roleStatus (roleId : Int) : Option Int :=
  if roleId = 1 then some 2
  else if roleId = 4 then some 3
  else if roleId = 5 then some 4
  else none

/-- The travel details payload of createTravelRequest: the main route
fields, notes and fees, and the additional routes. -/
structure TravelDetails where
  router_index : Int
  notes : String
  requested_fee : Int
  imposed_fee : Int
  origin_country_name : String
  origin_city_name : String
  destination_country_name : String
  destination_city_name : String
  beginning_ts : Int
  ending_ts : Int
  plane_needed : Bool
  hotel_needed : Bool
  additionalRoutes : List AdditionalRoute
deriving DecidableEq

/-- The main-route object createTravelRequest passes to formatRoutes. -/
def mainRouteOf (td : TravelDetails) : RouteLeg :=
  { router_index := td.router_index,
    origin_country_name := td.origin_country_name,
    origin_city_name := td.origin_city_name,
    destination_country_name := td.destination_country_name,
    destination_city_name := td.destination_city_name,
    beginning_ts := td.beginning_ts,
    ending_ts := td.ending_ts,
    plane_needed := td.plane_needed,
    hotel_needed := td.hotel_needed }

/-- The per-leg loop of createTravelRequest, inside the open transaction:
for each (index, leg), resolve the four locations, INSERT the Route row and
the Route_Request link.  legFails models an environment failure (location
resolution or insert) while processing the leg of that index; the loop
throws at the first failing leg. -/
def processRoutes (legFails : Nat → Bool) (requestId : Int) :
    DB → List (Nat × RouteLeg) → Except String DB
  | db, [] => .ok db
  | db, (i, route) :: rest =>
    if legFails i then .error "Database Error: Unable to process route"
    else
      let r1 := getCountryId db route.origin_country_name
      let r2 := getCountryId r1.1 route.destination_country_name
      let r3 := getCityId r2.1 route.origin_city_name
      let r4 := getCityId r3.1 route.destination_city_name
      let routeId := r4.1.nextRouteId
      let row : RouteRow :=
        { route_id := routeId,
          id_origin_country := r1.2,
          id_origin_city := r3.2,
          id_destination_country := r2.2,
          id_destination_city := r4.2,
          router_index := route.router_index,
          plane_needed := route.plane_needed,
          hotel_needed := route.hotel_needed,
          beginning_ts := route.beginning_ts,
          ending_ts := route.ending_ts }
      let db5 :=
        { r4.1 with
          routes := r4.1.routes ++ [row],
          nextRouteId := routeId + 1,
          route_requests := r4.1.route_requests ++ [(requestId, routeId)] }
      processRoutes legFails requestId db5 rest

/-- applicantModel.createTravelRequest: inside one transaction, look up the
actor role, map it to the initial status (throwing for any other role),
INSERT the Request row, then process every formatted leg; any error rolls
the whole transaction back, so the original state stays visible and the
outer catch rethrows a generic error. -/
def createTravelRequest (legFails : Nat → Bool) (db : DB) (userId : Int)
    (travelDetails : TravelDetails) : DB × Except String Int :=
  let body : Except String (DB × Int) :=
    match db.users.find? (fun u => decide (u.user_id = userId)) with
    | none => .error "TypeError"
    | some user =>
      match roleStatus user.role_id with
      | none => .error "User role in not allowed to create a travel request"
      | some request_status =>
        let allRoutes :=
          formatRoutes (mainRouteOf travelDetails) travelDetails.additionalRoutes
        let request_days := getRequestDays allRoutes
        let requestId := db.nextRequestId
        let row : RequestRow :=
          { request_id := requestId,
            user_id := userId,
            request_status_id := request_status,
            notes := travelDetails.notes,
            requested_fee := travelDetails.requested_fee,
            imposed_fee := travelDetails.imposed_fee,
            request_days := request_days }
        let db1 :=
          { db with
            requests := db.requests ++ [row],
            nextRequestId := requestId + 1 }
        match processRoutes legFails requestId db1 allRoutes.enum with
        | .error e => .error e
        | .ok db2 => .ok (db2, requestId)
  match body with
  | .error _ => (db, .error "Database Error: Unable to fill Request table")
  | .ok (db', requestId) => (db', .ok requestId)

/-- applicantModel.confirmDraftTravelRequest: look up the actor role, map it
to the status (throwing for any other role), then UPDATE the request status;
the role check precedes the update, so a failure leaves the state
unchanged. -/
def confirmDraftTravelRequest (db : DB) (userId requestId : Int) :
    DB × Except String Int :=
  let body : Except String DB :=
    match db.users.find? (fun u => decide (u.user_id = userId)) with
    | none => .error "TypeError"
    | some user =>
      match roleStatus user.role_id with
      | none => .error "User role in not allowed to create a travel request"
      | some request_status =>
        .ok (updateRequestStatus db requestId request_status)
  match body with
  | .error _ =>
      (db, .error "Database Error: Unable to confirm draft travel request")
  | .ok db' => (db', .ok requestId)

/-- A receipt of the batch-create payload, with dynamically typed fields as
received from the caller. -/
structure ReceiptInput where
  receipt_type_id : JsVal
  request_id : JsVal
  amount : JsVal
deriving DecidableEq

/-- applicantModel.createExpenseBatch: INSERT each receipt row inside one
transaction and return the number of inserted rows; the validation column
takes the Pendiente default of the schema. -/
def createExpenseBatch (db : DB) (receipts : List ReceiptInput) : DB × Nat :=
  ({ db with
     receipts := db.receipts ++
       receipts.enum.map (fun p =>
         { receipt_id := db.nextReceiptId + p.1,
           receipt_type_id := p.2.receipt_type_id.toInt,
           request_id := p.2.request_id.toInt,
           amount := p.2.amount.toInt,
           validation := "Pendiente" }),
     nextReceiptId := db.nextReceiptId + receipts.length },
   receipts.length)

/-- Outcome of the batch receipt creation service. -/
inductive BatchResult where
  | badRequest (message : String)
  | ok (insertedCount : Nat)
deriving DecidableEq

/-- applicantService.createExpenseValidationBatch: the input must be an
array (none models a non-array payload) and non-empty, every item must have
numeric receipt_type_id, request_id and amount, and only then is the batch
inserted. -/
def createExpenseValidationBatch (db : DB)
    (receipts : Option (List ReceiptInput)) : DB × BatchResult :=
  match receipts with
  | none => (db, .badRequest "The \"receipts\" field must be a non-empty array")
  | some rs =>
    if rs.isEmpty then
      (db, .badRequest "The \"receipts\" field must be a non-empty array")
    else if rs.any (fun r =>
        ¬ r.receipt_type_id.isNumber ∨ ¬ r.request_id.isNumber ∨
          ¬ r.amount.isNumber) then
      (db, .badRequest
        "Each receipt must include \"receipt_type_id\", \"request_id\", and \"amount\" (all as numbers)")
    else
      let (db', insertedCount) := createExpenseBatch db rs
      (db', .ok insertedCount)

/-- Substring test on strings, by direct search. -/
def strContains (s pat : String) : Bool :=
  (List.range (s.length + 1)).any (fun i =>
    decide ((s.data.drop i).take pat.data.length = pat.data))

/-! ### Helper lemmas -/

theorem receipts_updateRequestStatus (db : DB) (requestId statusId : Int) :
    (updateRequestStatus db requestId statusId).receipts = db.receipts := rfl

theorem getReceiptStatuses_update (db : DB) (requestId statusId r : Int) :
    getReceiptStatusesForRequest (updateRequestStatus db requestId statusId) r =
      getReceiptStatusesForRequest db r := rfl

theorem updateRequestStatus_idem (db : DB) (requestId statusId : Int) :
    updateRequestStatus (updateRequestStatus db requestId statusId) requestId
      statusId = updateRequestStatus db requestId statusId := by
  simp only [updateRequestStatus, List.map_map]
  congr 1
  apply List.map_congr_left
  intro q _
  by_cases h : q.request_id = requestId <;> simp [h, Function.comp]

theorem contains_true_iff_mem {l : List String} {a : String} :
    l.contains a = true ↔ a ∈ l :=
  List.elem_iff

/-- The reevaluation service on a given request is determined by the fetched
statuses list. -/
theorem reeval_snd_congr {db db' : DB} (requestId : Int)
    (h : getReceiptStatusesForRequest db' requestId =
      getReceiptStatusesForRequest db requestId) :
    (validateReceiptsAndUpdateStatus db' requestId).2 =
      (validateReceiptsAndUpdateStatus db requestId).2 := by
  simp only [validateReceiptsAndUpdateStatus, h]
  split
  · rfl
  · split <;> rfl

theorem reeval_rejected (db : DB) (requestId : Int)
    (h : "Rechazado" ∈ getReceiptStatusesForRequest db requestId) :
    validateReceiptsAndUpdateStatus db requestId =
      (updateRequestStatus db requestId 6,
        { updatedStatus := some 6,
          message := "Some receipts were rejected. Request moved back to step 6." }) := by
  simp [validateReceiptsAndUpdateStatus, contains_true_iff_mem.mpr h, h]

theorem reeval_all_approved (db : DB) (requestId : Int)
    (hm : "Rechazado" ∉ getReceiptStatusesForRequest db requestId)
    (hall : ∀ s ∈ getReceiptStatusesForRequest db requestId, s = "Aprobado") :
    validateReceiptsAndUpdateStatus db requestId =
      (updateRequestStatus db requestId 8,
        { updatedStatus := some 8,
          message := "All receipts approved. Request finalized." }) := by
  have hmb : (getReceiptStatusesForRequest db requestId).contains "Rechazado"
      = false :=
    Bool.eq_false_iff.mpr (fun hh => hm (contains_true_iff_mem.mp hh))
  have hab : ((getReceiptStatusesForRequest db requestId).all
      (fun s => decide (s = "Aprobado"))) = true :=
    List.all_eq_true.mpr (fun x hx => decide_eq_true (hall x hx))
  simp [validateReceiptsAndUpdateStatus, hmb, hab, hm]

theorem reeval_pending (db : DB) (requestId : Int)
    (hm : "Rechazado" ∉ getReceiptStatusesForRequest db requestId)
    (hnall : ¬ ∀ s ∈ getReceiptStatusesForRequest db requestId, s = "Aprobado") :
    validateReceiptsAndUpdateStatus db requestId =
      (db,
        { updatedStatus := none,
          message := "Receipts still pending. No status change applied." }) := by
  have hmb : (getReceiptStatusesForRequest db requestId).contains "Rechazado"
      = false :=
    Bool.eq_false_iff.mpr (fun hh => hm (contains_true_iff_mem.mp hh))
  have hab : ((getReceiptStatusesForRequest db requestId).all
      (fun s => decide (s = "Aprobado"))) = false :=
    Bool.eq_false_iff.mpr (fun hh =>
      hnall (fun x hx => of_decide_eq_true (List.all_eq_true.mp hh x hx)))
  simp [validateReceiptsAndUpdateStatus, hmb, hab, hm]

/-! ### C1 and C10: receipt reevaluation -/

/-- C1: validateReceiptsAndUpdateStatus reads the validation states of all
receipts of the request and decides in order: any Rejected receipt sets the
request status to 6 and reports it; else all Approved sets status 8 and
reports it; otherwise no state change and a still-pending report.  Re-calling
it on the resulting state reproduces the same state and outcome (idempotence),
and the outcome depends only on the multiset of receipt rows, hence not on
the order in which individual receipts were decided. -/
theorem receipt_reevaluation_decision (db : DB) (requestId : Int) :
    ("Rechazado" ∈ getReceiptStatusesForRequest db requestId →
      validateReceiptsAndUpdateStatus db requestId =
        (updateRequestStatus db requestId 6,
          { updatedStatus := some 6,
            message := "Some receipts were rejected. Request moved back to step 6." })) ∧
    ("Rechazado" ∉ getReceiptStatusesForRequest db requestId →
      (∀ s ∈ getReceiptStatusesForRequest db requestId, s = "Aprobado") →
      validateReceiptsAndUpdateStatus db requestId =
        (updateRequestStatus db requestId 8,
          { updatedStatus := some 8,
            message := "All receipts approved. Request finalized." })) ∧
    ("Rechazado" ∉ getReceiptStatusesForRequest db requestId →
      ¬ (∀ s ∈ getReceiptStatusesForRequest db requestId, s = "Aprobado") →
      validateReceiptsAndUpdateStatus db requestId =
        (db,
          { updatedStatus := none,
            message := "Receipts still pending. No status change applied." })) ∧
    (validateReceiptsAndUpdateStatus
        (validateReceiptsAndUpdateStatus db requestId).1 requestId =
      validateReceiptsAndUpdateStatus db requestId) ∧
    (∀ db' : DB, db'.receipts.Perm db.receipts →
      (validateReceiptsAndUpdateStatus db' requestId).2 =
        (validateReceiptsAndUpdateStatus db requestId).2) := by
  refine ⟨reeval_rejected db requestId, reeval_all_approved db requestId,
    reeval_pending db requestId, ?_, ?_⟩
  · by_cases hm : "Rechazado" ∈ getReceiptStatusesForRequest db requestId
    · have h6 := reeval_rejected db requestId hm
      calc validateReceiptsAndUpdateStatus
            (validateReceiptsAndUpdateStatus db requestId).1 requestId
          = validateReceiptsAndUpdateStatus
            (updateRequestStatus db requestId 6) requestId := by rw [h6]
        _ = (updateRequestStatus (updateRequestStatus db requestId 6) requestId 6,
            { updatedStatus := some 6,
              message := "Some receipts were rejected. Request moved back to step 6." }) :=
          reeval_rejected _ _ hm
        _ = validateReceiptsAndUpdateStatus db requestId := by
            rw [updateRequestStatus_idem, h6]
    · by_cases hall : ∀ s ∈ getReceiptStatusesForRequest db requestId,
          s = "Aprobado"
      · have h8 := reeval_all_approved db requestId hm hall
        calc validateReceiptsAndUpdateStatus
              (validateReceiptsAndUpdateStatus db requestId).1 requestId
            = validateReceiptsAndUpdateStatus
              (updateRequestStatus db requestId 8) requestId := by rw [h8]
          _ = (updateRequestStatus (updateRequestStatus db requestId 8) requestId 8,
              { updatedStatus := some 8,
                message := "All receipts approved. Request finalized." }) :=
            reeval_all_approved _ _ hm hall
          _ = validateReceiptsAndUpdateStatus db requestId := by
              rw [updateRequestStatus_idem, h8]
      · have hp := reeval_pending db requestId hm hall
        rw [hp]
        exact hp
  · intro db' hperm
    have hs : (getReceiptStatusesForRequest db' requestId).Perm
        (getReceiptStatusesForRequest db requestId) :=
      (hperm.filter _).map _
    have hc : (getReceiptStatusesForRequest db' requestId).contains "Rechazado" =
        (getReceiptStatusesForRequest db requestId).contains "Rechazado" := by
      rw [Bool.eq_iff_iff, contains_true_iff_mem, contains_true_iff_mem]
      exact hs.mem_iff
    have ha : ((getReceiptStatusesForRequest db' requestId).all
          (fun s => decide (s = "Aprobado"))) =
        ((getReceiptStatusesForRequest db requestId).all
          (fun s => decide (s = "Aprobado"))) := by
      rw [Bool.eq_iff_iff, List.all_eq_true, List.all_eq_true]
      constructor
      · intro hh x hx
        exact hh x (hs.mem_iff.mpr hx)
      · intro hh x hx
        exact hh x (hs.mem_iff.mp hx)
    simp only [validateReceiptsAndUpdateStatus, hc, ha]
    split
    · rfl
    · split <;> rfl

/-- C10: on a request with zero attached receipts the reevaluation sets
status 8 and reports the all-approved outcome, because the rejected check
finds nothing and the every check is vacuously true on an empty list. -/
theorem receipt_reevaluation_empty (db : DB) (requestId : Int)
    (h : getReceiptStatusesForRequest db requestId = []) :
    validateReceiptsAndUpdateStatus db requestId =
      (updateRequestStatus db requestId 8,
        { updatedStatus := some 8,
          message := "All receipts approved. Request finalized." }) := by
  apply reeval_all_approved
  · rw [h]
    exact List.not_mem_nil _
  · rw [h]
    exact fun s hs => absurd hs (List.not_mem_nil _)

/-- An empty store (all auto-increment counters at 1). -/
def emptyDB : DB := ⟨[], [], [], [], [], [], [], 1, 1, 1, 1, 1⟩

/-- A store whose request 7 has one rejected receipt. -/
def dbRej : DB :=
  { emptyDB with
    requests := [⟨7, 1, 7, "", 0, 0, 0⟩],
    receipts := [⟨1, 1, 7, 10, "Rechazado"⟩] }

/-- A store whose request 7 has one approved receipt. -/
def dbApp : DB :=
  { emptyDB with
    requests := [⟨7, 1, 7, "", 0, 0, 0⟩],
    receipts := [⟨1, 1, 7, 10, "Aprobado"⟩] }

/-- A store whose request 7 has one pending and one approved receipt. -/
def dbPend : DB :=
  { emptyDB with
    requests := [⟨7, 1, 7, "", 0, 0, 0⟩],
    receipts := [⟨1, 1, 7, 10, "Pendiente"⟩, ⟨2, 1, 7, 5, "Aprobado"⟩] }

/-- dbPend with its receipt rows in the opposite order. -/
def dbPendSwap : DB :=
  { emptyDB with
    requests := [⟨7, 1, 7, "", 0, 0, 0⟩],
    receipts := [⟨2, 1, 7, 5, "Aprobado"⟩, ⟨1, 1, 7, 10, "Pendiente"⟩] }

/-- Witness for C1 at concrete stores: a rejected receipt moves request 7 to
status 6, all-approved moves it to 8, a pending mix changes nothing, and the
swapped receipt order gives the same outcome. -/
theorem receipt_reevaluation_decision_witness :
    validateReceiptsAndUpdateStatus dbRej 7 =
      (updateRequestStatus dbRej 7 6,
        { updatedStatus := some 6,
          message := "Some receipts were rejected. Request moved back to step 6." }) ∧
    validateReceiptsAndUpdateStatus dbApp 7 =
      (updateRequestStatus dbApp 7 8,
        { updatedStatus := some 8,
          message := "All receipts approved. Request finalized." }) ∧
    validateReceiptsAndUpdateStatus dbPend 7 =
      (dbPend,
        { updatedStatus := none,
          message := "Receipts still pending. No status change applied." }) ∧
    (validateReceiptsAndUpdateStatus dbPendSwap 7).2 =
      (validateReceiptsAndUpdateStatus dbPend 7).2 :=
  ⟨(receipt_reevaluation_decision dbRej 7).1 (by decide),
   (receipt_reevaluation_decision dbApp 7).2.1 (by decide) (by decide),
   (receipt_reevaluation_decision dbPend 7).2.2.1 (by decide) (by decide),
   (receipt_reevaluation_decision dbPend 7).2.2.2.2 dbPendSwap (by decide)⟩

/-- Witness for C10: on a store with no receipts at all, reevaluating
request 1 finalizes it at status 8. -/
theorem receipt_reevaluation_empty_witness :
    getReceiptStatusesForRequest emptyDB 1 = [] ∧
    validateReceiptsAndUpdateStatus emptyDB 1 =
      (updateRequestStatus emptyDB 1 8,
        { updatedStatus := some 8,
          message := "All receipts approved. Request finalized." }) :=
  ⟨rfl, receipt_reevaluation_empty emptyDB 1 rfl⟩

/-! ### Keyed lookup helpers -/

theorem find?_key_of_mem {α β : Type} [DecidableEq β] {key : α → β}
    {l : List α} (hnd : (l.map key).Nodup) {q : α} (hq : q ∈ l) :
    l.find? (fun x => decide (key x = key q)) = some q := by
  induction l with
  | nil => cases hq
  | cons a t ih =>
    rw [List.map_cons, List.nodup_cons] at hnd
    cases hq with
    | head => exact List.find?_cons_of_pos _ (by simp)
    | tail _ hq' =>
      have hne : key a ≠ key q :=
        fun he => hnd.1 (he ▸ List.mem_map_of_mem key hq')
      rw [List.find?_cons_of_neg _ (by simpa using hne)]
      exact ih hnd.2 hq'

theorem find?_key_none {α β : Type} [DecidableEq β] {key : α → β}
    {l : List α} {k : β} (h : ∀ x ∈ l, key x ≠ k) :
    l.find? (fun x => decide (key x = k)) = none :=
  List.find?_eq_none.mpr (fun x hx => by simpa using h x hx)

theorem updateRequestStatus_sets (db : DB) (requestId statusId : Int) :
    ∀ q ∈ (updateRequestStatus db requestId statusId).requests,
      q.request_id = requestId → q.request_status_id = statusId := by
  intro q hq hid
  simp only [updateRequestStatus, List.mem_map] at hq
  obtain ⟨x, hx, hfx⟩ := hq
  by_cases h : x.request_id = requestId
  · rw [← hfx]
    simp [h]
  · rw [← hfx] at hid
    simp [h] at hid

theorem cancelTravelRequest_eq_update (db : DB) (requestId : Int) :
    cancelTravelRequest db requestId = updateRequestStatus db requestId 9 := rfl

/-! ### C6: deciding a single receipt -/

/-- C6: validating one receipt is legal only while its state is Pendiente;
approval 1 moves it to Aprobado and approval 0 to Rechazado; a receipt
already decided is rejected unchanged; a missing receipt is a not-found
error. -/
theorem single_receipt_validation (db : DB) (receiptId approval : Int)
    (hnd : (db.receipts.map (fun r => r.receipt_id)).Nodup)
    (happ : approval = 0 ∨ approval = 1) :
    (∀ r ∈ db.receipts, r.receipt_id = receiptId →
      r.validation = "Pendiente" →
      validateReceipt db receiptId approval =
        ({ db with
           receipts := db.receipts.map (fun x =>
             if x.receipt_id = receiptId then
               { x with validation :=
                 if approval = 1 then "Aprobado" else "Rechazado" }
             else x) },
         .ok (if approval = 1 then "Aprobado" else "Rechazado"))) ∧
    (∀ r ∈ db.receipts, r.receipt_id = receiptId →
      r.validation ≠ "Pendiente" →
      validateReceipt db receiptId approval = (db, .alreadyDecided)) ∧
    ((∀ r ∈ db.receipts, r.receipt_id ≠ receiptId) →
      validateReceipt db receiptId approval = (db, .notFound)) := by
  have hap : ¬ (approval ≠ 0 ∧ approval ≠ 1) := by
    rcases happ with h | h <;> simp [h]
  refine ⟨?_, ?_, ?_⟩
  · intro r hr hid hpend
    subst hid
    have hfind : db.receipts.find?
        (fun x => decide (x.receipt_id = r.receipt_id)) = some r :=
      find?_key_of_mem hnd hr
    simp only [validateReceipt, if_neg hap, hfind]
    rw [if_neg (by simp [hpend])]
    rcases happ with h | h <;> subst h <;> norm_num [validationOfCode]
  · intro r hr hid hnp
    subst hid
    have hfind : db.receipts.find?
        (fun x => decide (x.receipt_id = r.receipt_id)) = some r :=
      find?_key_of_mem hnd hr
    simp only [validateReceipt, if_neg hap, hfind]
    rw [if_pos hnp]
  · intro hnone
    have hfind : db.receipts.find?
        (fun x => decide (x.receipt_id = receiptId)) = none :=
      find?_key_none hnone
    simp only [validateReceipt, if_neg hap, hfind]

/-- Witness for C6: in dbPend, approving pending receipt 1 marks it
Aprobado, re-deciding the already approved receipt 2 is rejected unchanged,
and receipt 99 is not found. -/
theorem single_receipt_validation_witness :
    validateReceipt dbPend 1 1 =
      ({ dbPend with
         receipts := [⟨1, 1, 7, 10, "Aprobado"⟩, ⟨2, 1, 7, 5, "Aprobado"⟩] },
       .ok "Aprobado") ∧
    validateReceipt dbPend 2 1 = (dbPend, .alreadyDecided) ∧
    validateReceipt dbPend 99 0 = (dbPend, .notFound) := by
  refine ⟨?_, ?_, ?_⟩
  · exact ((single_receipt_validation dbPend 1 1 (by decide) (by decide)).1
      ⟨1, 1, 7, 10, "Pendiente"⟩ (by decide) rfl rfl).trans (by decide)
  · exact (single_receipt_validation dbPend 2 1 (by decide) (by decide)).2.1
      ⟨2, 1, 7, 5, "Aprobado"⟩ (by decide) rfl (by decide)
  · exact (single_receipt_validation dbPend 99 0 (by decide) (by decide)).2.2
      (by decide)

/-! ### C4: cancellation -/

theorem cancelValidation_of_found (db : DB) (requestId : Int)
    {q : RequestRow}
    (hfind : db.requests.find? (fun x => decide (x.request_id = requestId)) =
      some q) :
    cancelTravelRequestValidation db requestId =
      if q.request_status_id = 0 then (db, .notFound)
      else if ¬ (q.request_status_id ∈ ([1, 2, 3, 4, 5, 9] : List Int)) then
        (db, .tooLate)
      else if q.request_status_id = 9 then (db, .alreadyCancelled)
      else (cancelTravelRequest db requestId, .ok requestId) := by
  simp only [cancelTravelRequestValidation, getRequestStatus, hfind]
  by_cases h0 : q.request_status_id = 0
  · simp [h0]
  · simp only [if_neg h0]

/-- C4: cancellation succeeds (status set to 9) exactly when the current
status is one of 1-5; an already cancelled request (9) is a distinct error;
statuses 6, 7, 8, 10 are a distinct too-late error; a missing request is
not-found; and every failure leaves the store unchanged. -/
theorem cancel_travel_request_rules (db : DB) (requestId : Int)
    (hnd : (db.requests.map (fun q => q.request_id)).Nodup) :
    (∀ q ∈ db.requests, q.request_id = requestId →
      ((cancelTravelRequestValidation db requestId).2 = .ok requestId ↔
        q.request_status_id ∈ ([1, 2, 3, 4, 5] : List Int))) ∧
    (∀ q ∈ db.requests, q.request_id = requestId →
      q.request_status_id ∈ ([1, 2, 3, 4, 5] : List Int) →
      cancelTravelRequestValidation db requestId =
        (cancelTravelRequest db requestId, .ok requestId) ∧
      ∀ q' ∈ (cancelTravelRequestValidation db requestId).1.requests,
        q'.request_id = requestId → q'.request_status_id = 9) ∧
    (∀ q ∈ db.requests, q.request_id = requestId → q.request_status_id = 9 →
      cancelTravelRequestValidation db requestId = (db, .alreadyCancelled)) ∧
    (∀ q ∈ db.requests, q.request_id = requestId →
      q.request_status_id ∈ ([6, 7, 8, 10] : List Int) →
      cancelTravelRequestValidation db requestId = (db, .tooLate)) ∧
    ((∀ q ∈ db.requests, q.request_id ≠ requestId) →
      cancelTravelRequestValidation db requestId = (db, .notFound)) ∧
    ((cancelTravelRequestValidation db requestId).2 ≠ .ok requestId →
      (cancelTravelRequestValidation db requestId).1 = db) := by
  refine ⟨?_, ?_, ?_, ?_, ?_, ?_⟩
  · intro q hq hid
    subst hid
    rw [cancelValidation_of_found db q.request_id (find?_key_of_mem hnd hq)]
    by_cases h0 : q.request_status_id = 0
    · simp [h0]
    · by_cases hmem : q.request_status_id ∈ ([1, 2, 3, 4, 5, 9] : List Int)
      · by_cases h9 : q.request_status_id = 9
        · simp [h0, hmem, h9]
        · have h5 : q.request_status_id ∈ ([1, 2, 3, 4, 5] : List Int) := by
            simp only [List.mem_cons, List.not_mem_nil, or_false] at hmem ⊢
            omega
          simp [h0, hmem, h9, h5]
      · have hn5 : q.request_status_id ∉ ([1, 2, 3, 4, 5] : List Int) := by
          intro hc
          apply hmem
          simp only [List.mem_cons, List.not_mem_nil, or_false] at hc ⊢
          omega
        simp [h0, hmem, hn5]
  · intro q hq hid h5
    subst hid
    have h5' := h5
    simp only [List.mem_cons, List.not_mem_nil, or_false] at h5'
    have h0 : ¬ q.request_status_id = 0 := by omega
    have h9 : ¬ q.request_status_id = 9 := by omega
    have hmem : q.request_status_id ∈ ([1, 2, 3, 4, 5, 9] : List Int) := by
      simp only [List.mem_cons, List.not_mem_nil, or_false]
      omega
    have heq : cancelTravelRequestValidation db q.request_id =
        (cancelTravelRequest db q.request_id, .ok q.request_id) := by
      rw [cancelValidation_of_found db q.request_id (find?_key_of_mem hnd hq)]
      simp [h0, hmem, h9]
    refine ⟨heq, ?_⟩
    rw [heq]
    intro q' hq' hid'
    rw [cancelTravelRequest_eq_update] at hq'
    exact updateRequestStatus_sets db q.request_id 9 q' hq' hid'
  · intro q hq hid h9
    subst hid
    rw [cancelValidation_of_found db q.request_id (find?_key_of_mem hnd hq)]
    simp [h9]
  · intro q hq hid h6
    subst hid
    simp only [List.mem_cons, List.not_mem_nil, or_false] at h6
    have h0 : ¬ q.request_status_id = 0 := by omega
    have hmem : q.request_status_id ∉ ([1, 2, 3, 4, 5, 9] : List Int) := by
      simp only [List.mem_cons, List.not_mem_nil, or_false]
      omega
    rw [cancelValidation_of_found db q.request_id (find?_key_of_mem hnd hq)]
    simp [h0, hmem]
  · intro hnone
    have hfind : db.requests.find?
        (fun x => decide (x.request_id = requestId)) = none :=
      find?_key_none hnone
    simp [cancelTravelRequestValidation, getRequestStatus, hfind]
  · intro hne
    rcases hg : getRequestStatus db requestId with _ | s
    · simp [cancelTravelRequestValidation, hg]
    · by_cases hmem : s ∈ ([1, 2, 3, 4, 5, 9] : List Int)
      · by_cases h9 : s = 9
        · simp [cancelTravelRequestValidation, hg, hmem, h9]
        · exfalso
          apply hne
          simp [cancelTravelRequestValidation, hg, hmem, h9]
      · simp [cancelTravelRequestValidation, hg, hmem]

/-- A store with three requests: status 2 (cancellable), status 9 (already
cancelled) and status 6 (too late). -/
def dbCancel : DB :=
  { emptyDB with
    requests := [⟨1, 1, 2, "", 0, 0, 0⟩, ⟨2, 1, 9, "", 0, 0, 0⟩,
      ⟨3, 1, 6, "", 0, 0, 0⟩] }

/-- Witness for C4 at dbCancel: request 1 (status 2) cancels, request 2
(status 9) reports already cancelled, request 3 (status 6) reports too late,
request 99 is not found. -/
theorem cancel_travel_request_rules_witness :
    (cancelTravelRequestValidation dbCancel 1).2 = .ok 1 ∧
    cancelTravelRequestValidation dbCancel 2 = (dbCancel, .alreadyCancelled) ∧
    cancelTravelRequestValidation dbCancel 3 = (dbCancel, .tooLate) ∧
    cancelTravelRequestValidation dbCancel 99 = (dbCancel, .notFound) :=
  ⟨((cancel_travel_request_rules dbCancel 1 (by decide)).1
      ⟨1, 1, 2, "", 0, 0, 0⟩ (by decide) rfl).mpr (by decide),
   (cancel_travel_request_rules dbCancel 2 (by decide)).2.2.1
      ⟨2, 1, 9, "", 0, 0, 0⟩ (by decide) rfl rfl,
   (cancel_travel_request_rules dbCancel 3 (by decide)).2.2.2.1
      ⟨3, 1, 6, "", 0, 0, 0⟩ (by decide) rfl (by decide),
   (cancel_travel_request_rules dbCancel 99 (by decide)).2.2.2.2.1
      (by decide)⟩

/-! ### C5: accounts-payable attend -/

theorem contains_one_indicator {α : Type} (l : List α) (p : α → Bool) :
    ((l.map (fun r => if p r then (1 : Int) else 0)).contains 1 = true) ↔
      ∃ r ∈ l, p r = true := by
  rw [show ((l.map (fun r => if p r then (1 : Int) else 0)).contains 1 = true)
      ↔ (1 : Int) ∈ l.map (fun r => if p r then (1 : Int) else 0) from
    List.elem_iff]
  simp only [List.mem_map]
  constructor
  · rintro ⟨r, hr, he⟩
    refine ⟨r, hr, ?_⟩
    by_cases hp : p r = true
    · exact hp
    · simp [hp] at he
  · rintro ⟨r, hr, hp⟩
    exact ⟨r, hr, by simp [hp]⟩

theorem attendUpdate_sets (db : DB) (requestId imposedFee newStatus : Int) :
    ∀ q ∈ (attendUpdate db requestId imposedFee newStatus).requests,
      q.request_id = requestId →
      q.request_status_id = newStatus ∧ q.imposed_fee = imposedFee := by
  intro q hq hid
  simp only [attendUpdate, List.mem_map] at hq
  obtain ⟨x, hx, hfx⟩ := hq
  by_cases h : x.request_id = requestId
  · rw [← hfx]
    simp [h]
  · rw [← hfx] at hid
    simp [h] at hid

/-- C5: attending a request is legal only when it exists with status 4; it
then stores the imposed fee and advances to 5 when some leg needs a hotel or
a flight, otherwise to 6; a status other than 4 is rejected unchanged. -/
theorem accounts_payable_attend (db : DB) (requestId imposedFee : Int)
    (hnd : (db.requests.map (fun q => q.request_id)).Nodup) :
    (∀ q ∈ db.requests, q.request_id = requestId → q.request_status_id = 4 →
      (∃ r ∈ routesOfRequest db requestId,
          r.hotel_needed = true ∨ r.plane_needed = true) →
      attendTravelRequest db requestId imposedFee =
        (attendUpdate db requestId imposedFee 5, .ok 5 imposedFee) ∧
      ∀ q' ∈ (attendTravelRequest db requestId imposedFee).1.requests,
        q'.request_id = requestId →
        q'.request_status_id = 5 ∧ q'.imposed_fee = imposedFee) ∧
    (∀ q ∈ db.requests, q.request_id = requestId → q.request_status_id = 4 →
      ¬ (∃ r ∈ routesOfRequest db requestId,
          r.hotel_needed = true ∨ r.plane_needed = true) →
      attendTravelRequest db requestId imposedFee =
        (attendUpdate db requestId imposedFee 6, .ok 6 imposedFee) ∧
      ∀ q' ∈ (attendTravelRequest db requestId imposedFee).1.requests,
        q'.request_id = requestId →
        q'.request_status_id = 6 ∧ q'.imposed_fee = imposedFee) ∧
    (∀ q ∈ db.requests, q.request_id = requestId → q.request_status_id ≠ 4 →
      attendTravelRequest db requestId imposedFee = (db, .cannotAttend)) ∧
    ((∀ q ∈ db.requests, q.request_id ≠ requestId) →
      attendTravelRequest db requestId imposedFee = (db, .notFound)) := by
  refine ⟨?_, ?_, ?_, ?_⟩
  · intro q hq hid h4 hneed
    subst hid
    have hfind : requestExists db q.request_id = some q :=
      find?_key_of_mem hnd hq
    have hcond : (hotel_needed_list db q.request_id).contains 1 = true ∨
        (plane_needed_list db q.request_id).contains 1 = true := by
      obtain ⟨r, hr, hh | hp⟩ := hneed
      · exact Or.inl ((contains_one_indicator _ _).mpr ⟨r, hr, hh⟩)
      · exact Or.inr ((contains_one_indicator _ _).mpr ⟨r, hr, hp⟩)
    have heq : attendTravelRequest db q.request_id imposedFee =
        (attendUpdate db q.request_id imposedFee 5, .ok 5 imposedFee) := by
      simp only [attendTravelRequest, hfind]
      rw [if_neg (by simp [h4]), if_pos hcond]
    refine ⟨heq, ?_⟩
    rw [heq]
    exact attendUpdate_sets db q.request_id imposedFee 5
  · intro q hq hid h4 hneed
    subst hid
    have hfind : requestExists db q.request_id = some q :=
      find?_key_of_mem hnd hq
    have hcond : ¬ ((hotel_needed_list db q.request_id).contains 1 = true ∨
        (plane_needed_list db q.request_id).contains 1 = true) := by
      rintro (hh | hp)
      · obtain ⟨r, hr, h⟩ := (contains_one_indicator _ _).mp hh
        exact hneed ⟨r, hr, Or.inl h⟩
      · obtain ⟨r, hr, h⟩ := (contains_one_indicator _ _).mp hp
        exact hneed ⟨r, hr, Or.inr h⟩
    have heq : attendTravelRequest db q.request_id imposedFee =
        (attendUpdate db q.request_id imposedFee 6, .ok 6 imposedFee) := by
      simp only [attendTravelRequest, hfind]
      rw [if_neg (by simp [h4]), if_neg hcond]
    refine ⟨heq, ?_⟩
    rw [heq]
    exact attendUpdate_sets db q.request_id imposedFee 6
  · intro q hq hid h4
    subst hid
    have hfind : requestExists db q.request_id = some q :=
      find?_key_of_mem hnd hq
    simp only [attendTravelRequest, hfind]
    rw [if_pos h4]
  · intro hnone
    have hfind : requestExists db requestId = none := find?_key_none hnone
    simp only [attendTravelRequest, hfind]

/-- A store with requests 1 and 2 at status 4 (request 1 with a
hotel-needing leg, request 2 with no legs) and request 3 at status 5. -/
def dbAttend : DB :=
  { emptyDB with
    requests := [⟨1, 1, 4, "", 0, 0, 0⟩, ⟨2, 1, 4, "", 0, 0, 0⟩,
      ⟨3, 1, 5, "", 0, 0, 0⟩],
    routes := [⟨10, 1, 1, 1, 1, 0, false, true, 0, 0⟩],
    route_requests := [(1, 10)] }

/-- Witness for C5 at dbAttend: attending request 1 advances to 5, request 2
advances to 6, request 3 is rejected, request 99 is not found. -/
theorem accounts_payable_attend_witness :
    attendTravelRequest dbAttend 1 5 =
      (attendUpdate dbAttend 1 5 5, .ok 5 5) ∧
    attendTravelRequest dbAttend 2 7 =
      (attendUpdate dbAttend 2 7 6, .ok 6 7) ∧
    attendTravelRequest dbAttend 3 5 = (dbAttend, .cannotAttend) ∧
    attendTravelRequest dbAttend 99 5 = (dbAttend, .notFound) :=
  ⟨((accounts_payable_attend dbAttend 1 5 (by decide)).1
      ⟨1, 1, 4, "", 0, 0, 0⟩ (by decide) rfl rfl (by decide)).1,
   ((accounts_payable_attend dbAttend 2 7 (by decide)).2.1
      ⟨2, 1, 4, "", 0, 0, 0⟩ (by decide) rfl rfl (by decide)).1,
   (accounts_payable_attend dbAttend 3 5 (by decide)).2.2.1
      ⟨3, 1, 5, "", 0, 0, 0⟩ (by decide) rfl (by decide),
   (accounts_payable_attend dbAttend 99 5 (by decide)).2.2.2 (by decide)⟩

/-! ### C8: batch receipt creation -/

/-- C8: the batch create validates a non-empty array whose items all carry
numeric receipt_type_id, request_id and amount; any violation aborts before
any insert with a caller-facing error whose message names the fields; on
success all rows are inserted and their count returned. -/
theorem expense_batch_validation (db : DB)
    (input : Option (List ReceiptInput)) :
    (input = none →
      createExpenseValidationBatch db input =
        (db, .badRequest "The \"receipts\" field must be a non-empty array")) ∧
    (input = some [] →
      createExpenseValidationBatch db input =
        (db, .badRequest "The \"receipts\" field must be a non-empty array")) ∧
    (∀ rs, input = some rs → rs ≠ [] →
      (∃ r ∈ rs, ¬ r.receipt_type_id.isNumber = true ∨
        ¬ r.request_id.isNumber = true ∨ ¬ r.amount.isNumber = true) →
      createExpenseValidationBatch db input =
        (db, .badRequest
          "Each receipt must include \"receipt_type_id\", \"request_id\", and \"amount\" (all as numbers)")) ∧
    (strContains
        "Each receipt must include \"receipt_type_id\", \"request_id\", and \"amount\" (all as numbers)"
        "receipt_type_id" = true ∧
      strContains
        "Each receipt must include \"receipt_type_id\", \"request_id\", and \"amount\" (all as numbers)"
        "request_id" = true ∧
      strContains
        "Each receipt must include \"receipt_type_id\", \"request_id\", and \"amount\" (all as numbers)"
        "amount" = true) ∧
    (∀ rs, input = some rs → rs ≠ [] →
      (∀ r ∈ rs, r.receipt_type_id.isNumber = true ∧
        r.request_id.isNumber = true ∧ r.amount.isNumber = true) →
      createExpenseValidationBatch db input =
        ((createExpenseBatch db rs).1, .ok rs.length) ∧
      (createExpenseBatch db rs).1.receipts.length =
        db.receipts.length + rs.length) := by
  refine ⟨?_, ?_, ?_, ?_, ?_⟩
  · intro h
    subst h
    rfl
  · intro h
    subst h
    rfl
  · intro rs h hne hbad
    subst h
    simp only [createExpenseValidationBatch]
    rw [if_neg (by simpa [List.isEmpty_iff] using hne)]
    rw [if_pos ?_]
    obtain ⟨r, hr, hb⟩ := hbad
    exact List.any_eq_true.mpr ⟨r, hr, by simpa using hb⟩
  · refine ⟨by decide, by decide, by decide⟩
  · intro rs h hne hgood
    subst h
    simp only [createExpenseValidationBatch]
    rw [if_neg (by simpa [List.isEmpty_iff] using hne)]
    rw [if_neg ?_]
    swap
    · intro hany
      obtain ⟨r, hr, hb⟩ := List.any_eq_true.mp hany
      obtain ⟨h1, h2, h3⟩ := hgood r hr
      simp [h1, h2, h3] at hb
    refine ⟨rfl, ?_⟩
    simp [createExpenseBatch, List.enum_length]

/-- A valid two-receipt batch. -/
def goodBatch : List ReceiptInput :=
  [⟨.num 1, .num 7, .num 100⟩, ⟨.num 2, .num 7, .num 50⟩]

/-- Witness for C8: a non-array, an empty array, a batch with a non-numeric
amount (nothing inserted), and a valid batch (all rows inserted, count
returned). -/
theorem expense_batch_validation_witness :
    createExpenseValidationBatch emptyDB none =
      (emptyDB, .badRequest "The \"receipts\" field must be a non-empty array") ∧
    createExpenseValidationBatch emptyDB (some []) =
      (emptyDB, .badRequest "The \"receipts\" field must be a non-empty array") ∧
    createExpenseValidationBatch emptyDB
        (some [⟨.num 1, .num 7, .str "x"⟩]) =
      (emptyDB, .badRequest
        "Each receipt must include \"receipt_type_id\", \"request_id\", and \"amount\" (all as numbers)") ∧
    createExpenseValidationBatch emptyDB (some goodBatch) =
      ((createExpenseBatch emptyDB goodBatch).1, .ok goodBatch.length) ∧
    (createExpenseBatch emptyDB goodBatch).1.receipts.length =
      emptyDB.receipts.length + goodBatch.length :=
  ⟨(expense_batch_validation emptyDB none).1 rfl,
   (expense_batch_validation emptyDB (some [])).2.1 rfl,
   (expense_batch_validation emptyDB
      (some [⟨.num 1, .num 7, .str "x"⟩])).2.2.1 _ rfl (by decide) (by decide),
   ((expense_batch_validation emptyDB (some goodBatch)).2.2.2.2 goodBatch rfl
      (by decide) (by decide)).1,
   ((expense_batch_validation emptyDB (some goodBatch)).2.2.2.2 goodBatch rfl
      (by decide) (by decide)).2⟩

/-! ### C9: location resolver -/

theorem find?_name_append_new (l : List (Int × String)) (name : String)
    (nid : Int) (h : l.find? (fun c => decide (c.2 = name)) = none) :
    (l ++ [(nid, name)]).find? (fun c => decide (c.2 = name)) =
      some (nid, name) := by
  rw [List.find?_append, h]
  simp

theorem filter_name_of_find?_none (l : List (Int × String)) (name : String)
    (h : l.find? (fun c => decide (c.2 = name)) = none) :
    l.filter (fun c => decide (c.2 = name)) = [] := by
  rw [List.filter_eq_nil_iff]
  intro a ha
  have := List.find?_eq_none.mp h a ha
  simpa using this

/-- C9: getCountryId and getCityId are idempotent get-or-create operations
on the exact name: an existing row is returned without inserting, an absent
name is inserted once with a fresh identifier, a second resolution of the
same name returns the same identifier and changes nothing, and (when the
name is not duplicated beforehand) exactly one row with that name remains. -/
theorem location_resolver (db : DB) (name : String) :
    ((∃ c ∈ db.countries, c.2 = name) → (getCountryId db name).1 = db) ∧
    (∀ c, db.countries.find? (fun c => decide (c.2 = name)) = some c →
      getCountryId db name = (db, c.1)) ∧
    ((¬ ∃ c ∈ db.countries, c.2 = name) →
      getCountryId db name =
        ({ db with
           countries := db.countries ++ [(db.nextCountryId, name)],
           nextCountryId := db.nextCountryId + 1 },
         db.nextCountryId)) ∧
    (getCountryId (getCountryId db name).1 name =
      ((getCountryId db name).1, (getCountryId db name).2)) ∧
    ((db.countries.filter (fun c => decide (c.2 = name))).length ≤ 1 →
      ((getCountryId db name).1.countries.filter
        (fun c => decide (c.2 = name))).length = 1) ∧
    ((∃ c ∈ db.cities, c.2 = name) → (getCityId db name).1 = db) ∧
    (∀ c, db.cities.find? (fun c => decide (c.2 = name)) = some c →
      getCityId db name = (db, c.1)) ∧
    ((¬ ∃ c ∈ db.cities, c.2 = name) →
      getCityId db name =
        ({ db with
           cities := db.cities ++ [(db.nextCityId, name)],
           nextCityId := db.nextCityId + 1 },
         db.nextCityId)) ∧
    (getCityId (getCityId db name).1 name =
      ((getCityId db name).1, (getCityId db name).2)) ∧
    ((db.cities.filter (fun c => decide (c.2 = name))).length ≤ 1 →
      ((getCityId db name).1.cities.filter
        (fun c => decide (c.2 = name))).length = 1) := by
  have hex : ∀ (l : List (Int × String)),
      (∃ c ∈ l, c.2 = name) →
      ∃ c, l.find? (fun c => decide (c.2 = name)) = some c := by
    intro l hl
    have : (l.find? (fun c => decide (c.2 = name))).isSome = true := by
      rw [List.find?_isSome]
      obtain ⟨c, hc, hn⟩ := hl
      exact ⟨c, hc, by simpa using hn⟩
    cases hf : l.find? (fun c => decide (c.2 = name)) with
    | none => rw [hf] at this; cases this
    | some c => exact ⟨c, rfl⟩
  have hnex : ∀ (l : List (Int × String)),
      (¬ ∃ c ∈ l, c.2 = name) →
      l.find? (fun c => decide (c.2 = name)) = none := by
    intro l hl
    rw [List.find?_eq_none]
    intro x hx hpx
    exact hl ⟨x, hx, by simpa using hpx⟩
  refine ⟨?_, ?_, ?_, ?_, ?_, ?_, ?_, ?_, ?_, ?_⟩
  · intro h
    obtain ⟨c, hf⟩ := hex db.countries h
    simp [getCountryId, hf]
  · intro c hf
    simp [getCountryId, hf]
  · intro h
    simp [getCountryId, hnex db.countries h]
  · cases hf : db.countries.find? (fun c => decide (c.2 = name)) with
    | some c => simp [getCountryId, hf]
    | none =>
      have h2 := find?_name_append_new db.countries name db.nextCountryId hf
      simp [getCountryId, hf, h2]
  · intro hle
    cases hf : db.countries.find? (fun c => decide (c.2 = name)) with
    | some c =>
      have hp := List.find?_some hf
      have hmem : c ∈ db.countries.filter (fun c => decide (c.2 = name)) :=
        List.mem_filter.mpr ⟨List.mem_of_find?_eq_some hf, hp⟩
      have hge : 1 ≤ (db.countries.filter
          (fun c => decide (c.2 = name))).length :=
        List.length_pos.mpr (List.ne_nil_of_mem hmem)
      simp only [getCountryId, hf]
      omega
    | none =>
      simp only [getCountryId, hf]
      rw [List.filter_append, filter_name_of_find?_none db.countries name hf]
      simp
  · intro h
    obtain ⟨c, hf⟩ := hex db.cities h
    simp [getCityId, hf]
  · intro c hf
    simp [getCityId, hf]
  · intro h
    simp [getCityId, hnex db.cities h]
  · cases hf : db.cities.find? (fun c => decide (c.2 = name)) with
    | some c => simp [getCityId, hf]
    | none =>
      have h2 := find?_name_append_new db.cities name db.nextCityId hf
      simp [getCityId, hf, h2]
  · intro hle
    cases hf : db.cities.find? (fun c => decide (c.2 = name)) with
    | some c =>
      have hp := List.find?_some hf
      have hmem : c ∈ db.cities.filter (fun c => decide (c.2 = name)) :=
        List.mem_filter.mpr ⟨List.mem_of_find?_eq_some hf, hp⟩
      have hge : 1 ≤ (db.cities.filter
          (fun c => decide (c.2 = name))).length :=
        List.length_pos.mpr (List.ne_nil_of_mem hmem)
      simp only [getCityId, hf]
      omega
    | none =>
      simp only [getCityId, hf]
      rw [List.filter_append, filter_name_of_find?_none db.cities name hf]
      simp

/-- A store with one country row (3, "Mexico") and no city rows. -/
def dbLoc : DB :=
  { emptyDB with countries := [(3, "Mexico")], nextCountryId := 4 }

/-- Witness for C9: resolving "Mexico" returns the existing id 3 without
inserting; "mexico" (different case) and "Paris" are inserted fresh; exactly
one "Mexico" row remains. -/
theorem location_resolver_witness :
    (getCountryId dbLoc "Mexico").1 = dbLoc ∧
    getCountryId dbLoc "Mexico" = (dbLoc, 3) ∧
    getCountryId dbLoc "mexico" =
      ({ dbLoc with
         countries := dbLoc.countries ++ [(dbLoc.nextCountryId, "mexico")],
         nextCountryId := dbLoc.nextCountryId + 1 },
       dbLoc.nextCountryId) ∧
    getCityId dbLoc "Paris" =
      ({ dbLoc with
         cities := dbLoc.cities ++ [(dbLoc.nextCityId, "Paris")],
         nextCityId := dbLoc.nextCityId + 1 },
       dbLoc.nextCityId) ∧
    ((getCountryId dbLoc "Mexico").1.countries.filter
      (fun c => decide (c.2 = "Mexico"))).length = 1 :=
  ⟨(location_resolver dbLoc "Mexico").1 (by decide),
   (location_resolver dbLoc "Mexico").2.1 (3, "Mexico") (by decide),
   (location_resolver dbLoc "mexico").2.2.1 (by decide),
   (location_resolver dbLoc "Paris").2.2.2.2.2.2.2.1 (by decide),
   (location_resolver dbLoc "Mexico").2.2.2.2.1 (by decide)⟩

/-! ### C2 and C3: transactional create and role mapping -/

theorem getCountryId_frame (db : DB) (n : String) :
    (getCountryId db n).1.users = db.users ∧
    (getCountryId db n).1.requests = db.requests ∧
    (getCountryId db n).1.routes = db.routes ∧
    (getCountryId db n).1.route_requests = db.route_requests ∧
    (getCountryId db n).1.receipts = db.receipts := by
  cases hf : db.countries.find? (fun c => decide (c.2 = n)) <;>
    simp [getCountryId, hf]

theorem getCityId_frame (db : DB) (n : String) :
    (getCityId db n).1.users = db.users ∧
    (getCityId db n).1.requests = db.requests ∧
    (getCityId db n).1.routes = db.routes ∧
    (getCityId db n).1.route_requests = db.route_requests ∧
    (getCityId db n).1.receipts = db.receipts := by
  cases hf : db.cities.find? (fun c => decide (c.2 = n)) <;>
    simp [getCityId, hf]

/-- A route-processing loop that reaches a failing leg returns the
route-processing error, whatever state it starts from. -/
theorem processRoutes_fails (legFails : Nat → Bool) (requestId : Int) :
    ∀ (ps : List (Nat × RouteLeg)) (db : DB),
      (∃ p ∈ ps, legFails p.1 = true) →
      processRoutes legFails requestId db ps =
        .error "Database Error: Unable to process route" := by
  intro ps
  induction ps with
  | nil =>
    intro db h
    obtain ⟨p, hp, _⟩ := h
    cases hp
  | cons p rest ih =>
    intro db h
    obtain ⟨i, leg⟩ := p
    by_cases hf : legFails i = true
    · simp [processRoutes, hf]
    · simp only [processRoutes, if_neg hf]
      apply ih
      obtain ⟨q, hq, hqf⟩ := h
      cases hq with
      | head => exact absurd hqf hf
      | tail _ hq' => exact ⟨q, hq', hqf⟩

/-- A successful route-processing loop leaves the Request, Receipt and User
tables untouched, inserts one Route row per leg, and appends one link row
per leg, each pointing at the request. -/
theorem processRoutes_ok_shape (legFails : Nat → Bool) (requestId : Int) :
    ∀ (ps : List (Nat × RouteLeg)) (db db' : DB),
      processRoutes legFails requestId db ps = .ok db' →
      db'.users = db.users ∧
      db'.requests = db.requests ∧
      db'.receipts = db.receipts ∧
      db'.routes.length = db.routes.length + ps.length ∧
      ∃ L, db'.route_requests = db.route_requests ++ L ∧
        L.length = ps.length ∧ ∀ x ∈ L, x.1 = requestId := by
  intro ps
  induction ps with
  | nil =>
    intro db db' h
    simp only [processRoutes] at h
    cases h
    exact ⟨rfl, rfl, rfl, by simp, [], by simp, rfl, by simp⟩
  | cons p rest ih =>
    intro db db' h
    obtain ⟨i, leg⟩ := p
    by_cases hf : legFails i = true
    · simp [processRoutes, hf] at h
    · simp only [processRoutes, if_neg hf] at h
      obtain ⟨hu, hreq, hrec, hlen, L, hlink, hLlen, hLmem⟩ := ih _ _ h
      have f1 := getCountryId_frame db leg.origin_country_name
      have f2 := getCountryId_frame (getCountryId db leg.origin_country_name).1
        leg.destination_country_name
      have f3 := getCityId_frame
        (getCountryId (getCountryId db leg.origin_country_name).1
          leg.destination_country_name).1 leg.origin_city_name
      have f4 := getCityId_frame
        (getCityId (getCountryId (getCountryId db
          leg.origin_country_name).1 leg.destination_country_name).1
          leg.origin_city_name).1 leg.destination_city_name
      refine ⟨?_, ?_, ?_, ?_, ?_⟩
      · rw [hu]
        simp only [f4.1, f3.1, f2.1, f1.1]
      · rw [hreq]
        simp only [f4.2.1, f3.2.1, f2.2.1, f1.2.1]
      · rw [hrec]
        simp only [f4.2.2.2.2, f3.2.2.2.2, f2.2.2.2.2, f1.2.2.2.2]
      · rw [hlen]
        simp only [List.length_append, List.length_cons]
        simp only [f4.2.2.1, f3.2.2.1, f2.2.2.1, f1.2.2.1]
        simp [List.length_append]
        omega
      · refine ⟨(requestId,
            (getCityId (getCityId (getCountryId (getCountryId db
              leg.origin_country_name).1 leg.destination_country_name).1
              leg.origin_city_name).1
              leg.destination_city_name).1.nextRouteId) :: L,
            ?_, by simp [hLlen], ?_⟩
        · rw [hlink]
          simp only [f4.2.2.2.1, f3.2.2.2.1, f2.2.2.2.1, f1.2.2.2.1]
          simp [List.append_assoc]
        · intro x hx
          cases hx with
          | head => rfl
          | tail _ hx' => exact hLmem x hx'

/-- Shape of a successful createTravelRequest: the Request row is appended
with the role-derived status, one Route row and one link row exist per
formatted leg, and the Receipt table is untouched. -/
theorem createTravelRequest_ok_shape (legFails : Nat → Bool) (db : DB)
    (userId : Int) (td : TravelDetails) {u : UserRow} {st : Int}
    (hu : db.users.find? (fun x => decide (x.user_id = userId)) = some u)
    (hst : roleStatus u.role_id = some st) :
    ∀ db' rid, createTravelRequest legFails db userId td = (db', .ok rid) →
      rid = db.nextRequestId ∧
      db'.requests = db.requests ++
        [{ request_id := db.nextRequestId, user_id := userId,
           request_status_id := st, notes := td.notes,
           requested_fee := td.requested_fee,
           imposed_fee := td.imposed_fee,
           request_days := getRequestDays
             (formatRoutes (mainRouteOf td) td.additionalRoutes) }] ∧
      db'.routes.length = db.routes.length +
        (formatRoutes (mainRouteOf td) td.additionalRoutes).length ∧
      (∃ L, db'.route_requests = db.route_requests ++ L ∧
        L.length = (formatRoutes (mainRouteOf td) td.additionalRoutes).length ∧
        ∀ x ∈ L, x.1 = db.nextRequestId) ∧
      db'.receipts = db.receipts := by
  intro db' rid h
  simp only [createTravelRequest, hu, hst] at h
  split at h
  · simp at h
  · rename_i dbA ridA hbody
    split at hbody
    · simp at hbody
    · rename_i db2 hp
      simp only [Except.ok.injEq, Prod.mk.injEq] at hbody h
      obtain ⟨hb1, hb2⟩ := hbody
      obtain ⟨h1, h2⟩ := h
      subst hb1
      subst h1
      subst hb2
      subst h2
      obtain ⟨_, hreq, hrec, hlen, L, hlink, hLlen, hLmem⟩ :=
        processRoutes_ok_shape legFails db.nextRequestId _ _ _ hp
      refine ⟨rfl, ?_, ?_, ⟨L, ?_, ?_, hLmem⟩, ?_⟩
      · rw [hreq]
      · rw [hlen]
        simp [List.enum_length]
      · rw [hlink]
      · rw [hLlen]
        simp [List.enum_length]
      · rw [hrec]

/-- C2: createTravelRequest is atomic: if processing any leg fails, the
whole create rolls back and the original state stays visible (no request
row, no Route row, no link row from that call); on success the Request row,
all Route rows and all link rows of the call are visible together. -/
theorem create_travel_request_atomic (legFails : Nat → Bool) (db : DB)
    (userId : Int) (td : TravelDetails) :
    ((∃ p ∈ (formatRoutes (mainRouteOf td) td.additionalRoutes).enum,
        legFails p.1 = true) →
      createTravelRequest legFails db userId td =
        (db, .error "Database Error: Unable to fill Request table")) ∧
    (∀ db' rid, createTravelRequest legFails db userId td = (db', .ok rid) →
      (∃ row : RequestRow, db'.requests = db.requests ++ [row] ∧
        row.request_id = rid ∧ row.user_id = userId) ∧
      db'.routes.length = db.routes.length +
        (formatRoutes (mainRouteOf td) td.additionalRoutes).length ∧
      (∃ L, db'.route_requests = db.route_requests ++ L ∧
        L.length = (formatRoutes (mainRouteOf td) td.additionalRoutes).length ∧
        ∀ x ∈ L, x.1 = rid) ∧
      db'.receipts = db.receipts) := by
  constructor
  · intro hfail
    cases hu : db.users.find? (fun x => decide (x.user_id = userId)) with
    | none => simp [createTravelRequest, hu]
    | some u =>
      cases hst : roleStatus u.role_id with
      | none => simp [createTravelRequest, hu, hst]
      | some st =>
        simp only [createTravelRequest, hu, hst]
        rw [processRoutes_fails legFails db.nextRequestId _ _ hfail]
  · intro db' rid h
    cases hu : db.users.find? (fun x => decide (x.user_id = userId)) with
    | none => simp [createTravelRequest, hu] at h
    | some u =>
      cases hst : roleStatus u.role_id with
      | none => simp [createTravelRequest, hu, hst] at h
      | some st =>
        obtain ⟨hrid, hreq, hroutes, ⟨L, hL1, hL2, hL3⟩, hrec⟩ :=
          createTravelRequest_ok_shape legFails db userId td hu hst db' rid h
        subst hrid
        exact ⟨⟨_, hreq, rfl, rfl⟩, hroutes, ⟨L, hL1, hL2, hL3⟩, hrec⟩

/-- C3: the role-to-initial-status mapping of create and confirm is exact:
role 1 gives status 2, role 4 gives status 3, role 5 gives status 4, and any
other role makes both operations fail with nothing persisted. -/
theorem role_initial_status (legFails : Nat → Bool) (db : DB)
    (userId requestId : Int) (td : TravelDetails) (u : UserRow)
    (hu : db.users.find? (fun x => decide (x.user_id = userId)) = some u) :
    (u.role_id = 1 → ∀ db' rid,
      createTravelRequest legFails db userId td = (db', .ok rid) →
      ∃ row : RequestRow, db'.requests = db.requests ++ [row] ∧
        row.request_status_id = 2) ∧
    (u.role_id = 4 → ∀ db' rid,
      createTravelRequest legFails db userId td = (db', .ok rid) →
      ∃ row : RequestRow, db'.requests = db.requests ++ [row] ∧
        row.request_status_id = 3) ∧
    (u.role_id = 5 → ∀ db' rid,
      createTravelRequest legFails db userId td = (db', .ok rid) →
      ∃ row : RequestRow, db'.requests = db.requests ++ [row] ∧
        row.request_status_id = 4) ∧
    (u.role_id ≠ 1 → u.role_id ≠ 4 → u.role_id ≠ 5 →
      createTravelRequest legFails db userId td =
        (db, .error "Database Error: Unable to fill Request table") ∧
      confirmDraftTravelRequest db userId requestId =
        (db, .error "Database Error: Unable to confirm draft travel request")) ∧
    (u.role_id = 1 →
      confirmDraftTravelRequest db userId requestId =
        (updateRequestStatus db requestId 2, .ok requestId)) ∧
    (u.role_id = 4 →
      confirmDraftTravelRequest db userId requestId =
        (updateRequestStatus db requestId 3, .ok requestId)) ∧
    (u.role_id = 5 →
      confirmDraftTravelRequest db userId requestId =
        (updateRequestStatus db requestId 4, .ok requestId)) := by
  refine ⟨?_, ?_, ?_, ?_, ?_, ?_, ?_⟩
  · intro h1 db' rid h
    have hst : roleStatus u.role_id = some 2 := by simp [roleStatus, h1]
    obtain ⟨_, hreq, _⟩ :=
      createTravelRequest_ok_shape legFails db userId td hu hst db' rid h
    exact ⟨_, hreq, rfl⟩
  · intro h4 db' rid h
    have hst : roleStatus u.role_id = some 3 := by simp [roleStatus, h4]
    obtain ⟨_, hreq, _⟩ :=
      createTravelRequest_ok_shape legFails db userId td hu hst db' rid h
    exact ⟨_, hreq, rfl⟩
  · intro h5 db' rid h
    have hst : roleStatus u.role_id = some 4 := by simp [roleStatus, h5]
    obtain ⟨_, hreq, _⟩ :=
      createTravelRequest_ok_shape legFails db userId td hu hst db' rid h
    exact ⟨_, hreq, rfl⟩
  · intro h1 h4 h5
    have hst : roleStatus u.role_id = none := by simp [roleStatus, h1, h4, h5]
    constructor
    · simp [createTravelRequest, hu, hst]
    · simp [confirmDraftTravelRequest, hu, hst]
  · intro h1
    have hst : roleStatus u.role_id = some 2 := by simp [roleStatus, h1]
    simp [confirmDraftTravelRequest, hu, hst]
  · intro h4
    have hst : roleStatus u.role_id = some 3 := by simp [roleStatus, h4]
    simp [confirmDraftTravelRequest, hu, hst]
  · intro h5
    have hst : roleStatus u.role_id = some 4 := by simp [roleStatus, h5]
    simp [confirmDraftTravelRequest, hu, hst]

/-- A one-leg travel payload (a 24-hour leg, plane needed). -/
def tdSample : TravelDetails :=
  { router_index := 0, notes := "n", requested_fee := 0, imposed_fee := 0,
    origin_country_name := "Mexico", origin_city_name := "CDMX",
    destination_country_name := "France", destination_city_name := "Paris",
    beginning_ts := 0, ending_ts := 86400000,
    plane_needed := true, hotel_needed := false,
    additionalRoutes := [] }

/-- A store with a single requester (role 1). -/
def dbUsers : DB := { emptyDB with users := [⟨1, 1⟩] }

/-- Witness for C2: with a failing leg the create returns the rolled-back
original store; with no failure the new store has one Route row per leg and
untouched receipts. -/
theorem create_travel_request_atomic_witness :
    createTravelRequest (fun _ => true) dbUsers 1 tdSample =
      (dbUsers, .error "Database Error: Unable to fill Request table") ∧
    (createTravelRequest (fun _ => false) dbUsers 1 tdSample).1.routes.length =
      dbUsers.routes.length +
        (formatRoutes (mainRouteOf tdSample) tdSample.additionalRoutes).length ∧
    (createTravelRequest (fun _ => false) dbUsers 1 tdSample).1.receipts =
      dbUsers.receipts :=
  ⟨(create_travel_request_atomic (fun _ => true) dbUsers 1 tdSample).1
      (by decide),
   ((create_travel_request_atomic (fun _ => false) dbUsers 1 tdSample).2
      _ 1 (by decide)).2.1,
   ((create_travel_request_atomic (fun _ => false) dbUsers 1 tdSample).2
      _ 1 (by decide)).2.2.2⟩

/-- A store with users of roles 1, 4, 5 and 9, and one draft request 5. -/
def dbRoles : DB :=
  { emptyDB with
    users := [⟨1, 1⟩, ⟨2, 4⟩, ⟨3, 5⟩, ⟨4, 9⟩],
    requests := [⟨5, 1, 1, "", 0, 0, 0⟩] }

/-- Witness for C3: role 1 creates at status 2; roles 1, 4, 5 confirm to
statuses 2, 3, 4; role 9 can neither create nor confirm and the store is
unchanged. -/
theorem role_initial_status_witness :
    (∃ row : RequestRow,
      (createTravelRequest (fun _ => false) dbRoles 1 tdSample).1.requests =
        dbRoles.requests ++ [row] ∧ row.request_status_id = 2) ∧
    confirmDraftTravelRequest dbRoles 1 5 =
      (updateRequestStatus dbRoles 5 2, .ok 5) ∧
    confirmDraftTravelRequest dbRoles 2 5 =
      (updateRequestStatus dbRoles 5 3, .ok 5) ∧
    confirmDraftTravelRequest dbRoles 3 5 =
      (updateRequestStatus dbRoles 5 4, .ok 5) ∧
    createTravelRequest (fun _ => false) dbRoles 4 tdSample =
      (dbRoles, .error "Database Error: Unable to fill Request table") ∧
    confirmDraftTravelRequest dbRoles 4 5 =
      (dbRoles, .error "Database Error: Unable to confirm draft travel request") :=
  ⟨(role_initial_status (fun _ => false) dbRoles 1 5 tdSample ⟨1, 1⟩
      (by decide)).1 rfl _ 1 (by decide),
   (role_initial_status (fun _ => false) dbRoles 1 5 tdSample ⟨1, 1⟩
      (by decide)).2.2.2.2.1 rfl,
   (role_initial_status (fun _ => false) dbRoles 2 5 tdSample ⟨2, 4⟩
      (by decide)).2.2.2.2.2.1 rfl,
   (role_initial_status (fun _ => false) dbRoles 3 5 tdSample ⟨3, 5⟩
      (by decide)).2.2.2.2.2.2 rfl,
   ((role_initial_status (fun _ => false) dbRoles 4 5 tdSample ⟨4, 9⟩
      (by decide)).2.2.2.1 (by decide) (by decide) (by decide)).1,
   ((role_initial_status (fun _ => false) dbRoles 4 5 tdSample ⟨4, 9⟩
      (by decide)).2.2.2.1 (by decide) (by decide) (by decide)).2⟩

/-! ### C7: trip-day computation -/

theorem sorted_head_le {l : List RouteLeg} (hl : l.Sorted routeLe)
    (hne : l ≠ []) : ∀ x ∈ l, routeLe (l.head hne) x := by
  cases l with
  | nil => exact absurd rfl hne
  | cons a t =>
    intro x hx
    rcases List.mem_cons.mp hx with h | h
    · subst h
      show x.router_index ≤ x.router_index
      exact le_refl _
    · exact List.rel_of_sorted_cons hl x h

theorem sorted_le_getLast :
    ∀ (l : List RouteLeg), l.Sorted routeLe → ∀ (hne : l ≠ []),
      ∀ x ∈ l, routeLe x (l.getLast hne) := by
  intro l
  induction l with
  | nil => intro _ hne; exact absurd rfl hne
  | cons a t ih =>
    intro hl hne x hx
    cases t with
    | nil =>
      rcases List.mem_cons.mp hx with h | h
      · subst h
        show x.router_index ≤ x.router_index
        exact le_refl _
      · cases h
    | cons b t' =>
      rw [List.getLast_cons (by simp)]
      rcases List.mem_cons.mp hx with h | h
      · subst h
        exact List.rel_of_sorted_cons hl _ (List.getLast_mem _)
      · exact ih hl.of_cons (by simp) x h

theorem jsCeilDiv_eq_ceil (a : Int) :
    jsCeilDiv a msPerDay = ⌈(a : ℚ) / (86400000 : ℚ)⌉ := by
  have hb : (0 : Int) ≤ 86400000 := by norm_num
  have hms : msPerDay = 86400000 := by norm_num [msPerDay]
  rw [jsCeilDiv, hms, Int.fdiv_eq_ediv _ hb]
  have hfl : ((-a) / (86400000 : ℤ)) =
      ⌊((-a : ℤ) : ℚ) / ((86400000 : ℕ) : ℚ)⌋ :=
    (Rat.floor_intCast_div_natCast (-a) 86400000).symm
  rw [hfl]
  have h2 : ⌈(a : ℚ) / (86400000 : ℚ)⌉ =
      -⌊-((a : ℚ) / (86400000 : ℚ))⌋ := by
    rw [Int.floor_neg]
    omega
  rw [h2]
  congr 1
  congr 1
  push_cast
  ring

/-- C7: getRequestDays is 0 on no legs; on legs with pairwise distinct
sequence indices it is the ceiling (in days, over exact rationals) of the
difference between the ending timestamp of the highest-index leg and the
beginning timestamp of the lowest-index leg. -/
theorem trip_days_spec :
    getRequestDays [] = 0 ∧
    (∀ d : Int, jsCeilDiv d msPerDay = ⌈(d : ℚ) / (86400000 : ℚ)⌉) ∧
    (∀ (routes : List RouteLeg) (a b : RouteLeg), routes ≠ [] →
      (routes.map (fun r => r.router_index)).Nodup →
      a ∈ routes → (∀ x ∈ routes, a.router_index ≤ x.router_index) →
      b ∈ routes → (∀ x ∈ routes, x.router_index ≤ b.router_index) →
      getRequestDays routes =
        jsCeilDiv (b.ending_ts - a.beginning_ts) msPerDay) := by
  refine ⟨rfl, jsCeilDiv_eq_ceil, ?_⟩
  intro routes a b hne hnd ha hamin hb hbmax
  have hperm := List.perm_insertionSort routeLe routes
  have hsort := List.sorted_insertionSort routeLe routes
  have hsne : List.insertionSort routeLe routes ≠ [] := by
    intro h
    have hlen := hperm.length_eq
    rw [h] at hlen
    exact hne (List.length_eq_zero.mp hlen.symm)
  have hhead_mem : (List.insertionSort routeLe routes).head hsne ∈ routes :=
    hperm.mem_iff.mp (List.head_mem hsne)
  have h1 : ((List.insertionSort routeLe routes).head hsne).router_index ≤
      a.router_index :=
    sorted_head_le hsort hsne a (hperm.mem_iff.mpr ha)
  have h2 : a.router_index ≤
      ((List.insertionSort routeLe routes).head hsne).router_index :=
    hamin _ hhead_mem
  have hha : (List.insertionSort routeLe routes).head hsne = a :=
    List.inj_on_of_nodup_map hnd hhead_mem ha (le_antisymm h1 h2)
  have hlast_mem : (List.insertionSort routeLe routes).getLast hsne ∈ routes :=
    hperm.mem_iff.mp (List.getLast_mem hsne)
  have h3 : b.router_index ≤
      ((List.insertionSort routeLe routes).getLast hsne).router_index :=
    sorted_le_getLast _ hsort hsne b (hperm.mem_iff.mpr hb)
  have h4 : ((List.insertionSort routeLe routes).getLast hsne).router_index ≤
      b.router_index :=
    hbmax _ hlast_mem
  have hhb : (List.insertionSort routeLe routes).getLast hsne = b :=
    List.inj_on_of_nodup_map hnd hlast_mem hb (le_antisymm h4 h3)
  have hie : routes.isEmpty = false :=
    Bool.eq_false_iff.mpr (fun hh => hne (List.isEmpty_iff.mp hh))
  simp only [getRequestDays, hie, Bool.false_eq_true, if_false,
    List.head?_eq_head hsne, List.getLast?_eq_getLast _ hsne, hha, hhb]

/-- Witness for C7: a single leg from 09:00 of day one to 09:00 of the next
day (exactly 24 hours) gives one trip day. -/
theorem trip_days_spec_witness :
    getRequestDays
      [⟨0, "MX", "CDMX", "FR", "Paris", 32400000, 118800000, true, false⟩] =
      1 :=
  (trip_days_spec.2.2
    [⟨0, "MX", "CDMX", "FR", "Paris", 32400000, 118800000, true, false⟩]
    ⟨0, "MX", "CDMX", "FR", "Paris", 32400000, 118800000, true, false⟩
    ⟨0, "MX", "CDMX", "FR", "Paris", 32400000, 118800000, true, false⟩
    (by decide) (by decide) (by decide) (by decide) (by decide)
    (by decide)).trans (by decide)
